import Mathlib

/-! Verification of the zendesk-merge-bot core: the duplicate-ticket
clustering and merge pass of src/merge_bot.py, the duplicate-user survivor
selection of src/.github/workflows/merge_bot.py, and the escalation-reason
propagation pass of src/copy_ops_reason.py.  Python dictionaries holding
ticket data become structures; external API calls become function
parameters (oracles); machine-level string operations (str.strip,
str.lower) are embedded as list-of-characters transforms. -/

set_option maxRecDepth 4000

/-! ## String normalization (Python str.strip / str.lower) -/

/-- Remove leading and trailing whitespace from a character list, as
Python str.strip does. -/
def stripChars (l : List Char) : List Char :=
  ((l.dropWhile Char.isWhitespace).reverse.dropWhile Char.isWhitespace).reverse

/-- Python str.lower (per-character lowercasing). -/
def lowerStr (s : String) : String :=
  ⟨s.data.map Char.toLower⟩

/-- Python s.strip().lower(): trim surrounding whitespace, then lowercase. -/
def stripLower (s : String) : String :=
  ⟨(stripChars s.data).map Char.toLower⟩

/-! ## Tickets and the merge pass of src/merge_bot.py -/

/-- A Zendesk ticket as read by the merge pass: id, requester id, optional
subject, optional status, the via.channel descriptor (absent when the via
payload lacks a channel), and the created_at timestamp (the parsed value
of the ISO timestamp string sorted on in main). -/
structure Ticket where
  id : Nat
  requester_id : Nat
  subject : Option String
  status : Option String
  viaChannel : Option String
  created_at : Nat
deriving DecidableEq

/-- Channel of a ticket as main computes it:
t.get("via", {}).get("channel", "unknown").lower(). -/
def normChannel (t : Ticket) : String :=
  lowerStr (t.viaChannel.getD "unknown")

/-- Subject normalization as main computes it:
(t.get("subject") or "").strip().lower(). -/
def normSubject (t : Ticket) : String :=
  stripLower (t.subject.getD "")

/-- The excluded-channels set of main. -/
def excludedChannels : List String := ["whatsapp", "any_channel"]

/-- Channel-exclusion test of main: channel in excluded_channels. -/
def channelExcluded (t : Ticket) : Bool :=
  excludedChannels.contains (normChannel t)

/-- The excluded organization domain constant of merge_bot.py. -/
def ORG_DOMAIN_TO_EXCLUDE : String := "moc.gov.sa"

/-- Organization exclusion test of main: ORG_DOMAIN_TO_EXCLUDE in
get_requester_org_domains(requester_id).  The external lookup is the
function parameter orgDomains. -/
def orgExcluded (orgDomains : Nat → List String) (t : Ticket) : Bool :=
  (orgDomains t.requester_id).contains ORG_DOMAIN_TO_EXCLUDE

/-- The filtering loop of main.  For each ticket: the channel check runs
first (no lookup); for channel-included tickets the org-domains lookup is
invoked (its requester id is recorded in the second component) and the
organization exclusion is tested.  Returns the kept tickets and the list
of org-lookup invocations, in input order. -/
def filterPass (orgDomains : Nat → List String) : List Ticket → List Ticket × List Nat
  | [] => ([], [])
  | t :: ts =>
    let rest := filterPass orgDomains ts
    if channelExcluded t then rest
    else if orgExcluded orgDomains t then (rest.1, t.requester_id :: rest.2)
    else (t :: rest.1, t.requester_id :: rest.2)

/-- The tickets surviving both exclusions. -/
def filteredTickets (orgDomains : Nat → List String) (ts : List Ticket) : List Ticket :=
  (filterPass orgDomains ts).1

/-- The requester ids passed to get_requester_org_domains during the
filtering loop, one entry per invocation. -/
def orgLookupCalls (orgDomains : Nat → List String) (ts : List Ticket) : List Nat :=
  (filterPass orgDomains ts).2

/-- Grouping key of main: a 1-tuple (subject) for side-conversation
tickets, a 3-tuple (requester_id, subject, channel) otherwise. -/
inductive GroupKey where
  | side (subject : String)
  | std (requester : Nat) (subject : String) (channel : String)
deriving DecidableEq

/-- Key computation of main: key = (subject,) when the lowercased channel
is "side_conversation", else (requester_id, subject, channel). -/
def groupKey (t : Ticket) : GroupKey :=
  if normChannel t = "side_conversation" then GroupKey.side (normSubject t)
  else GroupKey.std t.requester_id (normSubject t) (normChannel t)

/-- Grouping key as the spec words it: when the ticket's via channel is
"side_conversation" the key is the one-element tuple of the normalized
subject; for every other channel the key is the triple of requester id,
normalized subject and channel; normalization of the subject is trim
followed by lowercase.  None when the ticket carries no via channel (the
spec does not speak of that case). -/
def groupKeySpec (t : Ticket) : Option GroupKey :=
  match t.viaChannel with
  | none => none
  | some c =>
    some (if c = "side_conversation" then GroupKey.side (stripLower (t.subject.getD ""))
          else GroupKey.std t.requester_id (stripLower (t.subject.getD "")) c)

/-- Keys of a list in first-occurrence order, matching the key order of
the defaultdict tickets_by_group in main. -/
def firstOccur {α : Type} [DecidableEq α] : List α → List α
  | [] => []
  | a :: l => a :: (firstOccur l).filter (fun x => decide (x ≠ a))

/-- The grouping of main: the filtered tickets bucketed by key, each
bucket keeping input order, keys in first-occurrence order. -/
def clusters (orgDomains : Nat → List String) (ts : List Ticket) :
    List (GroupKey × List Ticket) :=
  (firstOccur ((filteredTickets orgDomains ts).map groupKey)).map
    (fun k => (k, (filteredTickets orgDomains ts).filter (fun t => decide (groupKey t = k))))

/-- The ticket ids of one cluster. -/
def clusterIds (g : GroupKey × List Ticket) : List Nat :=
  g.2.map Ticket.id

/-- Creation-timestamp order used by the sort in main. -/
def createdLE (a b : Ticket) : Prop :=
  a.created_at ≤ b.created_at

instance : DecidableRel createdLE :=
  fun a b => Nat.decLe a.created_at b.created_at

instance : IsTotal Ticket createdLE :=
  ⟨fun a b => Nat.le_total a.created_at b.created_at⟩

instance : IsTrans Ticket createdLE :=
  ⟨fun _ _ _ h h2 => Nat.le_trans h h2⟩

/-- Stable sort of a bucket by created_at ascending,
t_list.sort(key = created_at) in main. -/
def sortByCreated (l : List Ticket) : List Ticket :=
  List.insertionSort createdLE l

/-- The merge target main picks: the head of the sorted bucket. -/
def candidateSurvivor (l : List Ticket) : Option Ticket :=
  (sortByCreated l).head?

/-- Status normalization of main: (t.get("status") or "").lower(). -/
def statusNorm (t : Ticket) : String :=
  lowerStr (t.status.getD "")

/-- Survivor veto of main: target_status in ["closed", "archived"]. -/
def vetoed (t : Ticket) : Bool :=
  statusNorm t == "closed" || statusNorm t == "archived"

/-- What the merge pass does with one bucket: nothing for singletons,
a skip report when the candidate survivor is vetoed, otherwise one merge
pair (source id, target id) per non-survivor. -/
inductive ClusterOutcome where
  | noDuplicates : ClusterOutcome
  | skipped (survivorId : Nat) : ClusterOutcome
  | merged (pairs : List (Nat × Nat)) : ClusterOutcome
deriving DecidableEq

/-- The per-bucket decision of main: buckets of size > 1 are sorted by
created_at; a closed or archived head skips the bucket; otherwise every
later ticket is scheduled to merge into the head. -/
def clusterOutcome (g : List Ticket) : ClusterOutcome :=
  if 1 < g.length then
    match sortByCreated g with
    | [] => ClusterOutcome.noDuplicates
    | s :: rest =>
      if vetoed s then ClusterOutcome.skipped s.id
      else ClusterOutcome.merged (rest.map (fun t => (t.id, s.id)))
  else ClusterOutcome.noDuplicates

/-- The merge pairs a bucket contributes (none on skip or singleton). -/
def clusterActions (g : List Ticket) : List (Nat × Nat) :=
  match clusterOutcome g with
  | ClusterOutcome.merged ps => ps
  | _ => []

/-- All merge pairs of one run of the merge pass. -/
def batchActions (orgDomains : Nat → List String) (ts : List Ticket) : List (Nat × Nat) :=
  ((clusters orgDomains ts).map (fun g => clusterActions g.2)).flatten

/-- The merge execution loop of main: for each non-survivor, call
merge_tickets(source, target), record the result, and continue with the
next ticket whatever the result was.  The adapter's answer is the oracle
mergeOk. -/
def executeMerges (mergeOk : Nat → Nat → Bool) (targetId : Nat) :
    List Ticket → List (Nat × Nat × Bool)
  | [] => []
  | t :: ts => (t.id, targetId, mergeOk t.id targetId) :: executeMerges mergeOk targetId ts

/-! ## Duplicate-user survivor selection
(pick_survivor in src/.github/workflows/merge_bot.py) -/

/-- A Zendesk user as pick_survivor reads it: id, verified flag, and the
parse of created_at (none when datetime.fromisoformat raises, which the
code maps to +infinity). -/
structure ZUser where
  id : Nat
  verified : Bool
  created_ts : Option Nat
deriving DecidableEq

/-- The verified-profile component of the selection key:
1 if u.get("verified") else 0. -/
def vbit (u : ZUser) : Nat :=
  if u.verified then 1 else 0

/-- Strict comparison of the third key component -created_ts, where an
unparseable created_at is +infinity (so its negation is below every
parsed value):  -a < -b iff b < a, and -infinity is least. -/
def thirdLt : Option Nat → Option Nat → Bool
  | none, none => false
  | none, some _ => true
  | some _, none => false
  | some a, some b => decide (b < a)

/-- Strict lexicographic comparison of the selection key
(solved count, verified bit, -created_ts) of pick_survivor. -/
def keyLt (counts : Nat → Nat) (a b : ZUser) : Bool :=
  decide (counts a.id < counts b.id) ||
    (decide (counts a.id = counts b.id) &&
      (decide (vbit a < vbit b) ||
        (decide (vbit a = vbit b) && thirdLt a.created_ts b.created_ts)))

/-- Python max over a nonempty list: keep the current element unless the
next one compares strictly greater, so the first of several maxima wins. -/
def pyMax {α : Type} (lt : α → α → Bool) : List α → Option α
  | [] => none
  | x :: xs => some (xs.foldl (fun best y => if lt best y then y else best) x)

/-- pick_survivor: the id of the max-key candidate, where counts is the
requester_counts map (solved tickets in the window). -/
def pick_survivor (counts : Nat → Nat) (candidates : List ZUser) : Option Nat :=
  (pyMax (keyLt counts) candidates).map ZUser.id

/-! ## Parent resolution for the propagation pass -/

/-- A via descriptor: channel, and the source.from reference (type tag
and ticket id) when present. -/
structure Via where
  channel : Option String
  sourceFromType : Option String
  sourceFromId : Option Nat
deriving DecidableEq

/-- A child ticket as the resolver sees it: its id, its live via
descriptor, and the via descriptors recorded in its audit trail. -/
structure ChildTicket where
  id : Nat
  via : Via
  auditVias : List Via
deriving DecidableEq

/-- Parent id a single via descriptor yields: the source.from id when the
descriptor declares a side conversation from a ticket. -/
def viaParent (v : Via) : Option Nat :=
  if v.channel = some "side_conversation" ∧ v.sourceFromType = some "ticket" then
    v.sourceFromId
  else none

/-- Self-loop guard: a candidate parent equal to the child's own id is
rejected (treated as a miss). -/
def guardSelf (childId : Nat) : Option Nat → Option Nat
  | some p => if p = childId then none else some p
  | none => none

/-- Modelled from the spec: the parent resolver (find_parent_ticket_id)
is invoked by the propagation pass in src/copy_ops_reason.py but is not
defined under src/; modelled from spec section 4.1.  Strategy chain, first
success wins: (1) the direct via link of the live ticket, (2) the first
audit-trail via descriptor naming a source ticket, (3) the reverse-search
cache (child id to parent id), here the oracle reverse.  Every candidate
passes the self-loop guard; none means no parent found. -/
def resolve_parent (reverse : Nat → Option Nat) (t : ChildTicket) : Option Nat :=
  match guardSelf t.id (viaParent t.via) with
  | some p => some p
  | none =>
    match guardSelf t.id (t.auditVias.findSome? viaParent) with
    | some p => some p
    | none => guardSelf t.id (reverse t.id)

/-! ## The propagation pass of src/copy_ops_reason.py -/

/-- The Ops Escalation Reason custom field id. -/
def OPS_ESCALATION_REASON_ID : Nat := 20837946693533

/-- A parent ticket as the pass reads it: id, optional assignee, and its
custom fields (field id paired with the optional stored value). -/
structure ParentTicket where
  id : Nat
  assignee_id : Option Nat
  custom_fields : List (Nat × Option String)
deriving DecidableEq

/-- A child ticket row of the view: id and requester id. -/
structure Child where
  id : Nat
  requester_id : Nat
deriving DecidableEq

/-- get_ticket_field: the value of the first custom field carrying the
given id, none when the field is absent or its value is null. -/
def get_ticket_field (fields : List (Nat × Option String)) (fid : Nat) : Option String :=
  match fields.find? (fun f => f.1 == fid) with
  | some f => f.2
  | none => none

/-- Python truthiness of the field value: present and non-empty. -/
def truthy : Option String → Bool
  | none => false
  | some s => !s.isEmpty

/-- A posted ticket comment: target ticket, body, public flag.
add_internal_note posts with isPublic = false. -/
structure Comment where
  ticketId : Nat
  body : String
  isPublic : Bool
deriving DecidableEq

/-- The display string for a user id: the fetched name when get_user
succeeds, else the fallback "ID:" followed by the id. -/
def displayName (userOf : Nat → Option String) (uid : Nat) : String :=
  match userOf uid with
  | some n => n
  | none => "ID:" ++ toString uid

/-- The user profile link used inside the note. -/
def userLink (subdomain : String) (uid : Nat) : String :=
  "https://" ++ subdomain ++ ".zendesk.com/users/" ++ toString uid

/-- The external collaborators of the propagation pass: the subdomain,
the resolved parent mapping, the ticket fetch, the user-name lookup, and
the success of the two write primitives. -/
structure Env where
  subdomain : String
  parentMap : Nat → Option Nat
  getParent : Nat → Option ParentTicket
  userOf : Nat → Option String
  setFieldOk : Nat → Bool
  noteOk : Nat → Bool

/-- The internal-note body of the missing-field branch, exactly as main
formats it. -/
def noteBody (env : Env) (parentId : Nat) (assigneeId : Option Nat) (reqId : Nat) : String :=
  let an := match assigneeId with
    | some aid => displayName env.userOf aid
    | none => "Unassigned"
  let al := match assigneeId with
    | some aid => userLink env.subdomain aid
    | none => ""
  "⚠ Ops Escalation Reason missing in parent ticket " ++ toString parentId ++ ". " ++
    "Assignee in parent: [" ++ an ++ "](" ++ al ++ "), " ++
    "Child requester: [" ++ displayName env.userOf reqId ++ "](" ++
    userLink env.subdomain reqId ++ ")"

/-- The terminal state of one child in the propagation loop. -/
inductive ItemOutcome where
  | noParent : ItemOutcome
  | parentFetchFailed : ItemOutcome
  | copied (childId : Nat) (value : String) : ItemOutcome
  | copyFailed (childId : Nat) : ItemOutcome
  | noteAdded (c : Comment) : ItemOutcome
  | noteFailed (c : Comment) : ItemOutcome
  | excepted : ItemOutcome
deriving DecidableEq

/-- The per-run counters of the propagation pass. -/
structure Counts where
  success : Nat
  missingField : Nat
  noParent : Nat
  errors : Nat
deriving DecidableEq

/-- The counter increment each outcome contributes in main. -/
def countsDelta : ItemOutcome → Counts
  | ItemOutcome.noParent => ⟨0, 0, 1, 0⟩
  | ItemOutcome.parentFetchFailed => ⟨0, 0, 0, 1⟩
  | ItemOutcome.copied _ _ => ⟨1, 0, 0, 0⟩
  | ItemOutcome.copyFailed _ => ⟨0, 0, 0, 1⟩
  | ItemOutcome.noteAdded _ => ⟨0, 1, 0, 0⟩
  | ItemOutcome.noteFailed _ => ⟨0, 0, 0, 1⟩
  | ItemOutcome.excepted => ⟨0, 0, 0, 1⟩

/-- The loop body of main for one child: look up the parent mapping,
fetch the parent, and either copy a truthy field value onto the child or
post the internal note on the parent. -/
def processChild (env : Env) (child : Child) : ItemOutcome :=
  match env.parentMap child.id with
  | none => ItemOutcome.noParent
  | some pid =>
    match env.getParent pid with
    | none => ItemOutcome.parentFetchFailed
    | some parent =>
      match get_ticket_field parent.custom_fields OPS_ESCALATION_REASON_ID with
      | some v =>
        if v.isEmpty then
          let c : Comment :=
            ⟨pid, noteBody env pid parent.assignee_id child.requester_id, false⟩
          if env.noteOk pid then ItemOutcome.noteAdded c else ItemOutcome.noteFailed c
        else
          if env.setFieldOk child.id then ItemOutcome.copied child.id v
          else ItemOutcome.copyFailed child.id
      | none =>
        let c : Comment :=
          ⟨pid, noteBody env pid parent.assignee_id child.requester_id, false⟩
        if env.noteOk pid then ItemOutcome.noteAdded c else ItemOutcome.noteFailed c

/-- One child under the try/except of main: an exception (oracle exc)
becomes the excepted outcome instead of aborting. -/
def processItem (env : Env) (exc : Nat → Bool) (c : Child) : ItemOutcome :=
  if exc c.id then ItemOutcome.excepted else processChild env c

/-- The propagation loop over the whole view: every child is processed,
one outcome each. -/
def runPass (env : Env) (exc : Nat → Bool) : List Child → List ItemOutcome
  | [] => []
  | c :: cs => processItem env exc c :: runPass env exc cs

/-! ## Concrete data for witnesses and counterexamples -/

/-- Scenario ticket: requester 9, subject "X", channel email, created 0. -/
def wT1 : Ticket := ⟨1, 9, some "X", some "open", some "email", 0⟩

/-- Scenario ticket: requester 9, subject "x", channel email, created 1. -/
def wT2 : Ticket := ⟨2, 9, some "x", some "open", some "email", 1⟩

/-- Subjectless closed ticket, earliest of its bucket. -/
def wT3 : Ticket := ⟨3, 9, none, some "closed", some "email", 0⟩

/-- Whitespace-only-subject open ticket, same requester and channel. -/
def wT4 : Ticket := ⟨4, 9, some "   ", some "open", some "email", 5⟩

/-- Side-conversation ticket with an unnormalized subject. -/
def wT5 : Ticket := ⟨5, 9, some " Hi ", some "open", some "side_conversation", 0⟩

/-- Unverified user created later. -/
def wU1 : ZUser := ⟨1, false, some 10⟩

/-- Verified user created earlier. -/
def wU2 : ZUser := ⟨2, true, some 5⟩

/-- Concrete propagation environment: parent 500 resolves, the parent
lacks the escalation field, every name lookup fails, writes succeed. -/
def wEnv : Env :=
  ⟨"sub", fun _ => some 500, fun _ => some ⟨500, some 7, [(1, some "x")]⟩,
   fun _ => none, fun _ => true, fun _ => true⟩

/-- Concrete child of the view for the witness. -/
def wChild : Child := ⟨600, 9⟩

/-! ## Helper lemmas -/

theorem filterPass_fst (d : Nat → List String) (ts : List Ticket) :
    (filterPass d ts).1 = ts.filter (fun t => !channelExcluded t && !orgExcluded d t) := by
  induction ts with
  | nil => rfl
  | cons t ts ih =>
    simp only [filterPass, List.filter_cons]
    cases h1 : channelExcluded t with
    | true => simp [h1, ih]
    | false =>
      cases h2 : orgExcluded d t with
      | true => simp [h1, h2, ih]
      | false => simp [h1, h2, ih]

theorem filterPass_snd (d : Nat → List String) (ts : List Ticket) :
    (filterPass d ts).2 = (ts.filter (fun t => !channelExcluded t)).map Ticket.requester_id := by
  induction ts with
  | nil => rfl
  | cons t ts ih =>
    simp only [filterPass, List.filter_cons]
    cases h1 : channelExcluded t with
    | true => simp [h1, ih]
    | false =>
      cases h2 : orgExcluded d t with
      | true => simp [h1, h2, ih]
      | false => simp [h1, h2, ih]

theorem mem_filteredTickets (d : Nat → List String) (t : Ticket) (ts : List Ticket) :
    t ∈ filteredTickets d ts ↔
      t ∈ ts ∧ channelExcluded t = false ∧ orgExcluded d t = false := by
  simp [filteredTickets, filterPass_fst, List.mem_filter]

theorem mem_firstOccur {α : Type} [DecidableEq α] (a : α) (l : List α) :
    a ∈ firstOccur l ↔ a ∈ l := by
  induction l with
  | nil => simp [firstOccur]
  | cons b l ih =>
    simp only [firstOccur, List.mem_cons, List.mem_filter, decide_eq_true_eq, ih]
    by_cases hab : a = b
    · simp [hab]
    · simp [hab]

theorem mem_cluster_group (d : Nat → List String) (ts : List Ticket) (k : GroupKey) (t : Ticket) :
    t ∈ (filteredTickets d ts).filter (fun x => decide (groupKey x = k)) ↔
      t ∈ filteredTickets d ts ∧ groupKey t = k := by
  simp [List.mem_filter]

theorem sortByCreated_perm (l : List Ticket) : (sortByCreated l).Perm l :=
  List.perm_insertionSort createdLE l

theorem sortByCreated_sorted (l : List Ticket) : List.Sorted createdLE (sortByCreated l) :=
  List.sorted_insertionSort createdLE l

theorem executeMerges_append (m : Nat → Nat → Bool) (tid : Nat) (ps qs : List Ticket) :
    executeMerges m tid (ps ++ qs) = executeMerges m tid ps ++ executeMerges m tid qs := by
  induction ps with
  | nil => rfl
  | cons t ts ih => simp [executeMerges, ih]

theorem executeMerges_fst (m : Nat → Nat → Bool) (tid : Nat) (ps : List Ticket) :
    (executeMerges m tid ps).map (fun r => r.1) = ps.map Ticket.id := by
  induction ps with
  | nil => rfl
  | cons t ts ih => simp [executeMerges, ih]

theorem executeMerges_length (m : Nat → Nat → Bool) (tid : Nat) (ps : List Ticket) :
    (executeMerges m tid ps).length = ps.length := by
  induction ps with
  | nil => rfl
  | cons t ts ih => simp [executeMerges, ih]

theorem runPass_append (env : Env) (exc : Nat → Bool) (xs ys : List Child) :
    runPass env exc (xs ++ ys) = runPass env exc xs ++ runPass env exc ys := by
  induction xs with
  | nil => rfl
  | cons c cs ih => simp [runPass, ih]

theorem runPass_length (env : Env) (exc : Nat → Bool) (xs : List Child) :
    (runPass env exc xs).length = xs.length := by
  induction xs with
  | nil => rfl
  | cons c cs ih => simp [runPass, ih]

/-! ## Claim theorems -/

/-- C2: for every cluster with at least two members, the merge target
(candidate survivor) has a creation timestamp less than or equal to that
of every other member: the bucket is sorted by creation timestamp
ascending and the earliest-created ticket becomes the candidate
survivor. -/
theorem survivor_is_oldest (g : List Ticket) (h2 : 2 ≤ g.length) :
    ∃ s, candidateSurvivor g = some s ∧ s ∈ g ∧
      (∀ t ∈ g, s.created_at ≤ t.created_at) ∧
      List.Sorted createdLE (sortByCreated g) ∧ (sortByCreated g).Perm g := by
  have hperm := sortByCreated_perm g
  have hsorted := sortByCreated_sorted g
  cases hs : sortByCreated g with
  | nil =>
    exfalso
    have hl := hperm.length_eq
    rw [hs] at hl
    simp at hl
    omega
  | cons s rest =>
    refine ⟨s, by simp [candidateSurvivor, hs], ?_, ?_, hs ▸ hsorted, hs ▸ hperm⟩
    · exact hperm.mem_iff.mp (by rw [hs]; exact List.mem_cons_self s rest)
    · intro t ht
      have ht' : t ∈ sortByCreated g := hperm.mem_iff.mpr ht
      rw [hs] at ht'
      rcases List.mem_cons.mp ht' with h | h
      · subst h; exact Nat.le_refl _
      · exact List.rel_of_sorted_cons (hs ▸ hsorted) t h

/-- Witness for C2: scenario A, two open tickets of requester 9 with the
same normalized subject; the earlier ticket is the survivor. -/
theorem survivor_is_oldest_witness :
    2 ≤ ([wT1, wT2] : List Ticket).length ∧
      (∃ s, candidateSurvivor [wT1, wT2] = some s ∧ s ∈ [wT1, wT2] ∧
        (∀ t ∈ [wT1, wT2], s.created_at ≤ t.created_at) ∧
        List.Sorted createdLE (sortByCreated [wT1, wT2]) ∧
        (sortByCreated [wT1, wT2]).Perm [wT1, wT2]) :=
  ⟨by decide, survivor_is_oldest [wT1, wT2] (by decide)⟩

/-- C3: a cluster whose candidate survivor is closed or archived yields
zero merge actions, however many members it has, and is reported as
skipped. -/
theorem veto_skips_cluster (g : List Ticket) (s : Ticket)
    (h2 : 1 < g.length) (hs : candidateSurvivor g = some s) (hv : vetoed s = true) :
    clusterOutcome g = ClusterOutcome.skipped s.id ∧ clusterActions g = [] := by
  cases hsort : sortByCreated g with
  | nil => simp [candidateSurvivor, hsort] at hs
  | cons a rest =>
    have ha : a = s := by simpa [candidateSurvivor, hsort] using hs
    subst ha
    constructor
    · simp [clusterOutcome, h2, hsort, hv]
    · simp [clusterActions, clusterOutcome, h2, hsort, hv]

/-- Witness for C3: scenario B, the earliest ticket of the bucket is
closed, so the two-ticket bucket is skipped with no merge pair. -/
theorem veto_skips_cluster_witness :
    (1 < ([wT3, wT4] : List Ticket).length ∧
      candidateSurvivor [wT3, wT4] = some wT3 ∧ vetoed wT3 = true) ∧
      (clusterOutcome [wT3, wT4] = ClusterOutcome.skipped wT3.id ∧
        clusterActions [wT3, wT4] = []) :=
  ⟨⟨by decide, by decide, by decide⟩,
    veto_skips_cluster [wT3, wT4] wT3 (by decide) (by decide) (by decide)⟩

/-- C4: for a ticket whose via channel is present and already lowercase,
the key the code computes is exactly the key the spec describes: the
one-element key (normalized subject) for side_conversation, else the
triple (requester id, normalized subject, channel), the subject being
trimmed then lowercased. -/
theorem group_key_matches_spec (t : Ticket) (c : String)
    (hc : t.viaChannel = some c) (hl : lowerStr c = c) :
    groupKeySpec t = some (groupKey t) := by
  have hch : normChannel t = c := by simp [normChannel, hc, hl]
  by_cases hside : c = "side_conversation"
  · simp [groupKeySpec, hc, groupKey, hch, hside, normSubject]
  · simp [groupKeySpec, hc, groupKey, hch, hside, normSubject]

/-- Witness for C4: a side-conversation ticket with an unnormalized
subject. -/
theorem group_key_matches_spec_witness :
    (wT5.viaChannel = some "side_conversation" ∧
      lowerStr "side_conversation" = "side_conversation") ∧
      groupKeySpec wT5 = some (groupKey wT5) :=
  ⟨⟨rfl, by decide⟩, group_key_matches_spec wT5 "side_conversation" rfl (by decide)⟩

/-- C6: parent resolution never returns the child's own id, whatever the
via descriptor, audit trail and reverse-search cache say; with no parent
candidate surviving, the outcome is the distinguished none. -/
theorem resolve_parent_no_self_loop (reverse : Nat → Option Nat) (t : ChildTicket) :
    resolve_parent reverse t ≠ some t.id := by
  have hg : ∀ o : Option Nat, guardSelf t.id o ≠ some t.id := by
    intro o
    cases o with
    | none => simp [guardSelf]
    | some p =>
      by_cases h : p = t.id
      · simp [guardSelf, h]
      · simp [guardSelf, h]
  unfold resolve_parent
  split
  next p h1 => exact h1 ▸ hg (viaParent t.via)
  next h1 =>
    split
    next p h2 => exact h2 ▸ hg (t.auditVias.findSome? viaParent)
    next h2 => exact hg (reverse t.id)

/-- C8: a failed merge or a per-item exception never aborts the batch:
executing the scheduled pairs of a batch is the concatenation of
executing its parts (so every pair after a failure is still attempted,
one attempt per scheduled pair), and the propagation pass processes every
child to an outcome regardless of per-item exceptions. -/
theorem failure_never_aborts_batch (mergeOk : Nat → Nat → Bool) (tid : Nat)
    (ps qs : List Ticket) (env : Env) (exc : Nat → Bool) (xs ys : List Child) :
    executeMerges mergeOk tid (ps ++ qs) =
        executeMerges mergeOk tid ps ++ executeMerges mergeOk tid qs
      ∧ (executeMerges mergeOk tid ps).map (fun r => r.1) = ps.map Ticket.id
      ∧ (executeMerges mergeOk tid ps).length = ps.length
      ∧ runPass env exc (xs ++ ys) = runPass env exc xs ++ runPass env exc ys
      ∧ (runPass env exc xs).length = xs.length :=
  ⟨executeMerges_append mergeOk tid ps qs, executeMerges_fst mergeOk tid ps,
    executeMerges_length mergeOk tid ps, runPass_append env exc xs ys,
    runPass_length env exc xs⟩

/-- C9 counterexample: two channel-included tickets of the same requester
trigger two org-domains lookups for that one requester id, so the lookup
is not invoked at most once per unique requester. -/
theorem org_lookup_not_cached_cex :
    (orgLookupCalls (fun _ => []) [wT1, wT2]).count 9 = 2 ∧
      ¬ (orgLookupCalls (fun _ => []) [wT1, wT2]).count 9 ≤ 1 := by
  decide

/-- C9 amended: the org-domains lookup is invoked exactly once per ticket
that passes the channel-exclusion filter, in input order, so the number
of lookup calls equals the number of channel-included tickets rather than
the number of unique requesters. -/
theorem org_lookup_once_per_included_ticket (d : Nat → List String) (ts : List Ticket) :
    orgLookupCalls d ts =
      (ts.filter (fun t => !channelExcluded t)).map Ticket.requester_id := by
  simpa [orgLookupCalls] using filterPass_snd d ts

/-- C1: with pairwise-distinct ticket ids in the batch, the clusters of
the merge pass partition the filtered input: an id lies in some cluster
exactly when its ticket survives the channel and organization exclusions,
the filtered set is precisely the batch minus the excluded tickets, and
no id lies in two distinct clusters (so no ticket is a non-survivor of
two clusters). -/
theorem merge_pass_partition (d : Nat → List String) (ts : List Ticket)
    (hid : (ts.map Ticket.id).Nodup) :
    (∀ i : Nat, (∃ g ∈ clusters d ts, i ∈ clusterIds g) ↔
        i ∈ (filteredTickets d ts).map Ticket.id)
      ∧ (∀ t : Ticket, t ∈ filteredTickets d ts ↔
          (t ∈ ts ∧ channelExcluded t = false ∧ orgExcluded d t = false))
      ∧ (∀ g₁ ∈ clusters d ts, ∀ g₂ ∈ clusters d ts, g₁ ≠ g₂ →
          ∀ i ∈ clusterIds g₁, i ∉ clusterIds g₂) := by
  refine ⟨?_, fun t => mem_filteredTickets d t ts, ?_⟩
  · intro i
    constructor
    · rintro ⟨g, hg, hi⟩
      simp only [clusters] at hg
      rcases List.mem_map.mp hg with ⟨k, hk, rfl⟩
      simp only [clusterIds] at hi
      rcases List.mem_map.mp hi with ⟨t, ht, rfl⟩
      exact List.mem_map_of_mem Ticket.id ((mem_cluster_group d ts k t).mp ht).1
    · intro hi
      rcases List.mem_map.mp hi with ⟨t, ht, rfl⟩
      refine ⟨(groupKey t,
        (filteredTickets d ts).filter (fun x => decide (groupKey x = groupKey t))), ?_, ?_⟩
      · simp only [clusters]
        exact List.mem_map.mpr ⟨groupKey t,
          (mem_firstOccur _ _).mpr (List.mem_map_of_mem groupKey ht), rfl⟩
      · simp only [clusterIds]
        exact List.mem_map_of_mem Ticket.id ((mem_cluster_group d ts _ t).mpr ⟨ht, rfl⟩)
  · intro g₁ hg₁ g₂ hg₂ hne i hi₁ hi₂
    simp only [clusters] at hg₁ hg₂
    rcases List.mem_map.mp hg₁ with ⟨k₁, hk₁, rfl⟩
    rcases List.mem_map.mp hg₂ with ⟨k₂, hk₂, rfl⟩
    simp only [clusterIds] at hi₁ hi₂
    rcases List.mem_map.mp hi₁ with ⟨t₁, ht₁, hti₁⟩
    rcases List.mem_map.mp hi₂ with ⟨t₂, ht₂, hti₂⟩
    have h₁ := (mem_cluster_group d ts k₁ t₁).mp ht₁
    have h₂ := (mem_cluster_group d ts k₂ t₂).mp ht₂
    have ht₁ts : t₁ ∈ ts := ((mem_filteredTickets d t₁ ts).mp h₁.1).1
    have ht₂ts : t₂ ∈ ts := ((mem_filteredTickets d t₂ ts).mp h₂.1).1
    have heq : t₁ = t₂ := List.inj_on_of_nodup_map hid ht₁ts ht₂ts (hti₁.trans hti₂.symm)
    have hkk : k₁ = k₂ := by rw [← h₁.2, ← h₂.2, heq]
    exact hne (by rw [hkk])

/-- Witness for C1: a two-ticket batch with distinct ids. -/
theorem merge_pass_partition_witness :
    (([wT1, wT2].map Ticket.id).Nodup) ∧
      ((∀ i : Nat, (∃ g ∈ clusters (fun _ => []) [wT1, wT2], i ∈ clusterIds g) ↔
          i ∈ (filteredTickets (fun _ => []) [wT1, wT2]).map Ticket.id)
        ∧ (∀ t : Ticket, t ∈ filteredTickets (fun _ => []) [wT1, wT2] ↔
            (t ∈ [wT1, wT2] ∧ channelExcluded t = false ∧
              orgExcluded (fun _ => []) t = false))
        ∧ (∀ g₁ ∈ clusters (fun _ => []) [wT1, wT2],
            ∀ g₂ ∈ clusters (fun _ => []) [wT1, wT2], g₁ ≠ g₂ →
              ∀ i ∈ clusterIds g₁, i ∉ clusterIds g₂)) :=
  ⟨by decide, merge_pass_partition (fun _ => []) [wT1, wT2] (by decide)⟩

theorem pyMax_max {α : Type} (lt : α → α → Bool)
    (hirr : ∀ a, lt a a = false)
    (htr : ∀ a b c, lt a b = true → lt b c = true → lt a c = true)
    (hco : ∀ a b c, lt a c = true → lt a b = true ∨ lt b c = true) :
    ∀ (xs : List α) (x : α),
      (xs.foldl (fun best y => if lt best y then y else best) x) ∈ x :: xs ∧
      ∀ v ∈ x :: xs,
        lt (xs.foldl (fun best y => if lt best y then y else best) x) v = false := by
  intro xs
  induction xs with
  | nil =>
    intro x
    constructor
    · simp
    · intro v hv
      simp at hv
      subst hv
      exact hirr _
  | cons y ys ih =>
    intro x
    simp only [List.foldl_cons]
    by_cases h : lt x y = true
    · rw [if_pos h]
      obtain ⟨hmem, hmax⟩ := ih y
      constructor
      · exact List.mem_cons_of_mem x hmem
      · intro v hv
        rcases List.mem_cons.mp hv with rfl | hv'
        · have hry : lt (ys.foldl (fun best y => if lt best y then y else best) y) y = false :=
            hmax y (List.mem_cons_self y ys)
          cases hrx : lt (ys.foldl (fun best y => if lt best y then y else best) y) v
          · rfl
          · exact absurd (htr _ _ _ hrx h) (by rw [hry]; simp)
        · exact hmax v hv'
    · rw [if_neg h]
      have hxy : lt x y = false := by
        cases hxy : lt x y
        · rfl
        · exact absurd hxy h
      obtain ⟨hmem, hmax⟩ := ih x
      constructor
      · rcases List.mem_cons.mp hmem with h1 | h1
        · rw [h1]; exact List.mem_cons_self x (y :: ys)
        · exact List.mem_cons_of_mem x (List.mem_cons_of_mem y h1)
      · intro v hv
        rcases List.mem_cons.mp hv with rfl | hv'
        · exact hmax v (List.mem_cons_self v ys)
        · rcases List.mem_cons.mp hv' with rfl | hv''
          · have hrx : lt (ys.foldl (fun best y => if lt best y then y else best) x) x = false :=
              hmax x (List.mem_cons_self x ys)
            cases hry : lt (ys.foldl (fun best y => if lt best y then y else best) x) v
            · rfl
            · rcases hco _ x v hry with hc | hc
              · rw [hrx] at hc; exact absurd hc (by simp)
              · rw [hxy] at hc; exact absurd hc (by simp)
          · exact hmax v (List.mem_cons_of_mem x hv'')

theorem keyLt_iff (counts : Nat → Nat) (a b : ZUser) :
    keyLt counts a b = true ↔
      (counts a.id < counts b.id ∨
        (counts a.id = counts b.id ∧
          (vbit a < vbit b ∨
            (vbit a = vbit b ∧ thirdLt a.created_ts b.created_ts = true)))) := by
  simp [keyLt, Bool.or_eq_true, Bool.and_eq_true, decide_eq_true_eq]

theorem thirdLt_irrefl (o : Option Nat) : thirdLt o o = false := by
  cases o <;> simp [thirdLt]

theorem thirdLt_trans (a b c : Option Nat)
    (h1 : thirdLt a b = true) (h2 : thirdLt b c = true) : thirdLt a c = true := by
  cases a <;> cases b <;> cases c <;> simp [thirdLt] at *
  all_goals omega

theorem thirdLt_co (a b c : Option Nat) (h : thirdLt a c = true) :
    thirdLt a b = true ∨ thirdLt b c = true := by
  cases a <;> cases b <;> cases c <;> simp [thirdLt] at *
  all_goals omega

theorem keyLt_irrefl (counts : Nat → Nat) (a : ZUser) : keyLt counts a a = false := by
  cases hk : keyLt counts a a
  · rfl
  · exfalso
    rw [keyLt_iff] at hk
    rcases hk with h | ⟨_, h | ⟨_, h⟩⟩
    · omega
    · omega
    · rw [thirdLt_irrefl] at h
      exact absurd h (by simp)

theorem keyLt_trans (counts : Nat → Nat) (a b c : ZUser)
    (h1 : keyLt counts a b = true) (h2 : keyLt counts b c = true) :
    keyLt counts a c = true := by
  rw [keyLt_iff] at h1 h2 ⊢
  rcases h1 with h1 | ⟨e1, h1⟩ <;> rcases h2 with h2 | ⟨e2, h2⟩
  · left; omega
  · left; omega
  · left; omega
  · right
    refine ⟨by omega, ?_⟩
    rcases h1 with h1 | ⟨f1, h1⟩ <;> rcases h2 with h2 | ⟨f2, h2⟩
    · left; omega
    · left; omega
    · left; omega
    · right; exact ⟨by omega, thirdLt_trans _ _ _ h1 h2⟩

theorem keyLt_co (counts : Nat → Nat) (a b c : ZUser)
    (h : keyLt counts a c = true) :
    keyLt counts a b = true ∨ keyLt counts b c = true := by
  rw [keyLt_iff] at h
  rw [keyLt_iff, keyLt_iff]
  rcases h with h | ⟨e, h⟩
  · by_cases hb : counts a.id < counts b.id
    · left; left; exact hb
    · right; left; omega
  · by_cases hb1 : counts a.id < counts b.id
    · left; left; exact hb1
    · by_cases hb2 : counts b.id < counts c.id
      · right; left; exact hb2
      · have eab : counts a.id = counts b.id := by omega
        have ebc : counts b.id = counts c.id := by omega
        rcases h with h | ⟨f, h⟩
        · by_cases hv : vbit a < vbit b
          · left; right; exact ⟨eab, Or.inl hv⟩
          · right; right; exact ⟨ebc, Or.inl (by omega)⟩
        · by_cases hv1 : vbit a < vbit b
          · left; right; exact ⟨eab, Or.inl hv1⟩
          · by_cases hv2 : vbit b < vbit c
            · right; right; exact ⟨ebc, Or.inl hv2⟩
            · have fab : vbit a = vbit b := by omega
              have fbc : vbit b = vbit c := by omega
              rcases thirdLt_co a.created_ts b.created_ts c.created_ts h with hh | hh
              · left; right; exact ⟨eab, Or.inr ⟨fab, hh⟩⟩
              · right; right; exact ⟨ebc, Or.inr ⟨fbc, hh⟩⟩

/-- C5: for a nonempty candidate list, pick_survivor returns the id of a
candidate that maximizes the ordered key (activity count in the window,
verified flag, earlier account creation): no candidate has a higher
count; among count-ties none has a higher verified bit; among full ties
none has an earlier (or parseable-versus-unparseable) creation
timestamp. -/
theorem pick_survivor_maximal (counts : Nat → Nat) (cands : List ZUser)
    (h : cands ≠ []) :
    ∃ u, pyMax (keyLt counts) cands = some u ∧ u ∈ cands ∧
      pick_survivor counts cands = some u.id ∧
      ∀ v ∈ cands,
        counts v.id ≤ counts u.id ∧
        (counts v.id = counts u.id → vbit v ≤ vbit u) ∧
        (counts v.id = counts u.id → vbit v = vbit u →
          thirdLt u.created_ts v.created_ts = false) := by
  cases cands with
  | nil => exact absurd rfl h
  | cons x xs =>
    obtain ⟨hmem, hmax⟩ :=
      pyMax_max (keyLt counts) (keyLt_irrefl counts) (keyLt_trans counts)
        (keyLt_co counts) xs x
    refine ⟨_, rfl, hmem, rfl, ?_⟩
    intro v hv
    have hfalse := hmax v hv
    have hpos : ¬ (keyLt counts (xs.foldl
        (fun best y => if keyLt counts best y then y else best) x) v = true) := by
      rw [hfalse]; simp
    rw [keyLt_iff] at hpos
    refine ⟨?_, ?_, ?_⟩
    · by_contra hc
      push_neg at hc
      exact hpos (Or.inl hc)
    · intro he
      by_contra hc
      push_neg at hc
      exact hpos (Or.inr ⟨he.symm, Or.inl hc⟩)
    · intro he hvb
      cases hx : thirdLt (xs.foldl
          (fun best y => if keyLt counts best y then y else best) x).created_ts v.created_ts
      · rfl
      · exact absurd (Or.inr ⟨he.symm, Or.inr ⟨hvb.symm, hx⟩⟩) hpos

/-- Witness for C5: two count-tied users; the verified one wins. -/
theorem pick_survivor_maximal_witness :
    (([wU1, wU2] : List ZUser) ≠ []) ∧
      (∃ u, pyMax (keyLt (fun _ => 0)) [wU1, wU2] = some u ∧ u ∈ [wU1, wU2] ∧
        pick_survivor (fun _ => 0) [wU1, wU2] = some u.id ∧
        ∀ v ∈ [wU1, wU2],
          (fun _ => 0 : Nat → Nat) v.id ≤ (fun _ => 0 : Nat → Nat) u.id ∧
          ((fun _ => 0 : Nat → Nat) v.id = (fun _ => 0 : Nat → Nat) u.id →
            vbit v ≤ vbit u) ∧
          ((fun _ => 0 : Nat → Nat) v.id = (fun _ => 0 : Nat → Nat) u.id →
            vbit v = vbit u → thirdLt u.created_ts v.created_ts = false)) :=
  ⟨by decide, pick_survivor_maximal (fun _ => 0) [wU1, wU2] (by decide)⟩

/-- C7 counterexample: when the name lookup fails for user 77, the string
placed in the note is "ID:77", not the bare numeric id string "77". -/
theorem missing_value_fallback_cex :
    displayName (fun _ => none) 77 = "ID:77" ∧
      displayName (fun _ => none) 77 ≠ toString 77 := by
  constructor
  · rfl
  · decide

/-- C7 amended: when the resolved parent lacks a truthy escalation-reason
value and the note write succeeds, the item produces exactly an internal
(non-public) note on the parent whose body names the parent's assignee
and the child's requester through displayName (the fetched name when the
lookup succeeds, the string "ID:" followed by the numeric id when it
fails), and the item counts as one note-added and zero copied. -/
theorem missing_value_notice_behaviour (env : Env) (child : Child) (pid : Nat)
    (parent : ParentTicket)
    (hmap : env.parentMap child.id = some pid)
    (hget : env.getParent pid = some parent)
    (hmiss : truthy (get_ticket_field parent.custom_fields OPS_ESCALATION_REASON_ID) = false)
    (hnote : env.noteOk pid = true) :
    processChild env child =
        ItemOutcome.noteAdded
          ⟨pid, noteBody env pid parent.assignee_id child.requester_id, false⟩
      ∧ (countsDelta (processChild env child)).missingField = 1
      ∧ (countsDelta (processChild env child)).success = 0
      ∧ (∀ uid n, env.userOf uid = some n → displayName env.userOf uid = n)
      ∧ (∀ uid, env.userOf uid = none →
          displayName env.userOf uid = "ID:" ++ toString uid) := by
  have hp : processChild env child =
      ItemOutcome.noteAdded
        ⟨pid, noteBody env pid parent.assignee_id child.requester_id, false⟩ := by
    simp only [processChild, hmap, hget]
    cases hv : get_ticket_field parent.custom_fields OPS_ESCALATION_REASON_ID with
    | none => simp [hnote]
    | some v =>
      have hve : v.isEmpty = true := by
        rw [hv] at hmiss
        simp [truthy] at hmiss
        exact hmiss
      simp [hve, hnote]
  refine ⟨hp, ?_, ?_, ?_, ?_⟩
  · rw [hp]; rfl
  · rw [hp]; rfl
  · intro uid n h
    simp [displayName, h]
  · intro uid h
    simp [displayName, h]

/-- Witness for C7: scenario E, parent 500 with the escalation field
absent, every name lookup failing, the note write succeeding. -/
theorem missing_value_notice_behaviour_witness :
    (wEnv.parentMap wChild.id = some 500 ∧
      wEnv.getParent 500 = some ⟨500, some 7, [(1, some "x")]⟩ ∧
      truthy (get_ticket_field ([(1, some "x")] : List (Nat × Option String))
        OPS_ESCALATION_REASON_ID) = false ∧
      wEnv.noteOk 500 = true) ∧
      (processChild wEnv wChild =
          ItemOutcome.noteAdded ⟨500, noteBody wEnv 500 (some 7) wChild.requester_id, false⟩
        ∧ (countsDelta (processChild wEnv wChild)).missingField = 1
        ∧ (countsDelta (processChild wEnv wChild)).success = 0
        ∧ (∀ uid n, wEnv.userOf uid = some n → displayName wEnv.userOf uid = n)
        ∧ (∀ uid, wEnv.userOf uid = none →
            displayName wEnv.userOf uid = "ID:" ++ toString uid)) :=
  ⟨⟨rfl, rfl, by decide, rfl⟩,
    missing_value_notice_behaviour wEnv wChild 500 ⟨500, some 7, [(1, some "x")]⟩
      rfl rfl (by decide) rfl⟩

/-- C10 counterexample: two tickets of requester 9 on channel email, one
with no subject and one with a whitespace-only subject, land in the same
cluster, yet the batch schedules no merge because the earliest-created
member is closed (survivor veto), contradicting that two or more such
tickets are scheduled to merge into one another. -/
theorem blank_subject_merge_cex :
    groupKey wT3 = groupKey wT4 ∧
      clusters (fun _ => []) [wT3, wT4] = [(GroupKey.std 9 "" "email", [wT3, wT4])] ∧
      batchActions (fun _ => []) [wT3, wT4] = [] := by
  refine ⟨by decide, by decide, by decide⟩

/-- C10 amended: tickets whose subject normalizes to the empty string
(absent or whitespace-only subject) with the same requester and channel
share a grouping key, and a bucket of two or more whose candidate
survivor is not vetoed schedules every other member to merge into that
survivor (one pair per non-survivor). -/
theorem blank_subject_same_cluster (t₁ t₂ : Ticket) (g : List Ticket) (s : Ticket)
    (hb₁ : normSubject t₁ = "") (hb₂ : normSubject t₂ = "")
    (hr : t₁.requester_id = t₂.requester_id) (hc : normChannel t₁ = normChannel t₂)
    (h2 : 1 < g.length) (hs : candidateSurvivor g = some s) (hnv : vetoed s = false) :
    groupKey t₁ = groupKey t₂
      ∧ clusterOutcome g =
          ClusterOutcome.merged ((sortByCreated g).tail.map (fun t => (t.id, s.id)))
      ∧ (clusterActions g).length = g.length - 1 := by
  have hkey : groupKey t₁ = groupKey t₂ := by
    unfold groupKey
    rw [hb₁, hb₂, hr, hc]
  cases hsort : sortByCreated g with
  | nil => simp [candidateSurvivor, hsort] at hs
  | cons a rest =>
    have ha : a = s := by simpa [candidateSurvivor, hsort] using hs
    subst ha
    have hout : clusterOutcome g =
        ClusterOutcome.merged (rest.map (fun t => (t.id, a.id))) := by
      simp [clusterOutcome, h2, hsort, hnv]
    have hlen : (sortByCreated g).length = g.length := (sortByCreated_perm g).length_eq
    rw [hsort] at hlen
    refine ⟨hkey, ?_, ?_⟩
    · simp [hout, hsort]
    · simp only [clusterActions, hout, List.length_map]
      simp at hlen
      omega

/-- Witness for the amended C10: the two blank-subject tickets share a
key, and a two-ticket bucket with an open survivor schedules one merge. -/
theorem blank_subject_same_cluster_witness :
    (normSubject wT3 = "" ∧ normSubject wT4 = "" ∧
      wT3.requester_id = wT4.requester_id ∧ normChannel wT3 = normChannel wT4 ∧
      1 < ([wT1, wT2] : List Ticket).length ∧
      candidateSurvivor [wT1, wT2] = some wT1 ∧ vetoed wT1 = false) ∧
      (groupKey wT3 = groupKey wT4
        ∧ clusterOutcome [wT1, wT2] =
            ClusterOutcome.merged
              ((sortByCreated [wT1, wT2]).tail.map (fun t => (t.id, wT1.id)))
        ∧ (clusterActions [wT1, wT2]).length = ([wT1, wT2] : List Ticket).length - 1) :=
  ⟨⟨by decide, by decide, by decide, by decide, by decide, by decide, by decide⟩,
    blank_subject_same_cluster wT3 wT4 [wT1, wT2] wT1 (by decide) (by decide)
      (by decide) (by decide) (by decide) (by decide) (by decide)⟩
